import Mathlib

/-!
Shallow embedding of the customer-analysis pipeline
(`FreRecAnalysis.py` / `MVAnalysis.py`): identity resolution,
monthly-visit aggregation, recency, segmentation, and monetary scoring.

Tables (pandas DataFrames) are modelled as lists of structure rows;
`groupby` is modelled by deduplicating the key column and aggregating the
rows sharing each key.  Group-key emission order is modelled by
`List.dedup` (order-irrelevant for every property proved here; the spec
itself, section 4.2, forbids consumers from assuming an order from
grouping steps).  Missing cells (`NaN`) are `Option.none`; amounts are
exact rationals.
-/

namespace CafePipeline

attribute [local semireducible] Rat.mul Rat.add Rat.sub Rat.inv

/-- A parsed timestamp (`pandas.Timestamp`), to minute precision, which is
all the source format `%m/%d/%y %I:%M %p` carries. -/
structure DT where
  year : Nat
  month : Nat
  day : Nat
  hour : Nat
  minute : Nat
deriving DecidableEq, Repr

/-- Chronological sort key of a timestamp. Components produced by
`parseDate` are bounded (month is at most 12, and so on), so comparing keys
compares timestamps lexicographically by field. -/
def DT.key (d : DT) : Nat :=
  (((d.year * 100 + d.month) * 100 + d.day) * 100 + d.hour) * 100 + d.minute

/-- Split a character list on a separator character, like
`str.split(sep)` restricted to one-character separators. -/
def splitOnChar (sep : Char) : List Char → List (List Char)
  | [] => [[]]
  | c :: cs =>
    if c = sep then [] :: splitOnChar sep cs
    else
      match splitOnChar sep cs with
      | [] => [[c]]
      | g :: gs => (c :: g) :: gs

/-- Value of a nonempty all-digit character list; `none` otherwise. -/
def digits? (l : List Char) : Option Nat :=
  if !l.isEmpty && l.all Char.isDigit then
    some (l.foldl (fun n c => n * 10 + (c.toNat - 48)) 0)
  else none

/-- `str.isdigit()` from Python: true on a nonempty string of digits. -/
def pyIsDigit (s : String) : Bool :=
  !s.data.isEmpty && s.data.all Char.isDigit

/-- `pd.to_datetime(…, format="%m/%d/%y %I:%M %p", errors="coerce")` on one
cell: parse month/day/two-digit-year clock-with-AM/PM, yielding `none`
(`NaT`) when the cell does not match the format.  Two-digit years follow
the pandas pivot: 00–68 map to 2000–2068, 69–99 to 1969–1999. -/
def parseDate (s : String) : Option DT :=
  match splitOnChar ' ' s.data with
  | [dpart, tpart, ampm] =>
    match splitOnChar '/' dpart, splitOnChar ':' tpart with
    | [ms, ds, ys], [hs, mins] =>
      match digits? ms, digits? ds, digits? ys, digits? hs, digits? mins with
      | some m, some d, some y, some h, some mi =>
        if 1 ≤ m ∧ m ≤ 12 ∧ 1 ≤ d ∧ d ≤ 31 ∧ ys.length = 2 ∧
            1 ≤ h ∧ h ≤ 12 ∧ mi ≤ 59 ∧ (ampm = ['A', 'M'] ∨ ampm = ['P', 'M']) then
          some
            { year := if y ≤ 68 then 2000 + y else 1900 + y
              month := m
              day := d
              hour :=
                if ampm = ['P', 'M'] then (if h = 12 then 12 else h + 12)
                else (if h = 12 then 0 else h)
              minute := mi }
        else none
      | _, _, _, _, _ => none
    | _, _ => none
  | _ => none

/-- One ingested transaction row: columns `Paid Date`, `Amount`, `Type`,
`Last 4 Card Digits` (as strings from the sheet; `none` is a missing
card-suffix cell). -/
structure TxRow where
  paidDate : String
  amount : String
  ptype : String
  last4 : Option String
deriving DecidableEq, Repr

/-- A transaction row after `create_customer_id`: the added
`last_4_card_digits` and `Customer ID` columns. -/
structure IdRow extends TxRow where
  last4str : String
  customerId : String
deriving DecidableEq, Repr

/-- The row-wise lambda of `create_customer_id` (FreRecAnalysis.py lines
114–119).  After `fillna("").astype(str)` the cell is a string, so the
`pd.notna` conjunct is always true and the branch is decided by
`isdigit()` alone. -/
def makeCustomerId (paidDate amount ptype last4str : String) : String :=
  if pyIsDigit last4str then last4str
  else paidDate ++ "|" ++ amount ++ "|" ++ ptype

/-- `create_customer_id` over a single row: fill the missing card suffix
with `""` and attach the resolved `Customer ID`. -/
def createIdRow (r : TxRow) : IdRow :=
  { toTxRow := r
    last4str := r.last4.getD ""
    customerId := makeCustomerId r.paidDate r.amount r.ptype (r.last4.getD "") }

/-- `FrequencyRecency.create_customer_id` (lines 93–120).  The method
works on `all_data.copy()`, so the caller's table is untouched; the
returned table is the copy with the two added columns. -/
def create_customer_id (rows : List TxRow) : List IdRow :=
  rows.map createIdRow

/-- `MonetaryValue._assign_action` (MVAnalysis.py lines 139–146): spend
band to recommended action. -/
def assign_action (value : ℚ) : String :=
  if value > 1000 then "VIP Treatment: Personalized Offers"
  else if 500 ≤ value ∧ value ≤ 1000 then "Upselling: Discounts on Larger Purchases"
  else if 100 ≤ value ∧ value < 500 then "Retention: Loyalty Rewards"
  else "Engagement: Marketing Emails or Social Media"

/-- The `Month` column value of a row: month of the parsed `Paid Date`
(`NaN`, i.e. `none`, when the timestamp does not parse). -/
def rowMonth (r : IdRow) : Option Nat :=
  (parseDate r.paidDate).map DT.month

/-- The `(Customer ID, Month)` grouping keys of
`calculate_monthly_visits`: one entry per row whose timestamp parses.
Rows with `Month = NaN` are dropped, because `groupby` with a `NaN` key
excludes that group (pandas default `dropna=True`). -/
def visitKeys (rows : List IdRow) : List (String × Nat) :=
  rows.filterMap (fun r => (rowMonth r).map (fun m => (r.customerId, m)))

/-- One output row of `calculate_monthly_visits`. -/
structure VisitRow where
  customerId : String
  month : Nat
  visits : Nat
deriving DecidableEq, Repr

/-- `FrequencyRecency.calculate_monthly_visits` (lines 141–144): parse the
timestamps, extract the month, and count rows per `(Customer ID, Month)`
group.  (The method also mutates the caller's table in place; that frame
effect is modelled separately by `calculate_monthly_visits_frame`.) -/
def calculate_monthly_visits (rows : List IdRow) : List VisitRow :=
  ((visitKeys rows).dedup).map
    (fun k => { customerId := k.1, month := k.2, visits := (visitKeys rows).count k })

/-- The parsed timestamps of one customer's rows, unparseable ones
excluded (`NaT` is skipped by the `max` aggregation). -/
def parsedDates (rows : List IdRow) (c : String) : List DT :=
  (rows.filter (fun r => r.customerId = c)).filterMap (fun r => parseDate r.paidDate)

/-- One step of the `NaT`-skipping maximum: keep the later of the running
maximum and the next timestamp. -/
def maxStep (acc : Option DT) (d : DT) : Option DT :=
  match acc with
  | none => some d
  | some m => if m.key < d.key then some d else some m

/-- Latest timestamp of a list, by chronological key; `none` on the empty
list (a group whose values are all `NaT` yields `NaT`). -/
def maxDT (l : List DT) : Option DT :=
  l.foldl maxStep none

/-- `FrequencyRecency.calculate_recency` (lines 164–165):
`groupby("Customer ID")["Paid Date"].max()` — one output row per distinct
customer, carrying the latest parsed timestamp, or `none` (`NaT`) when
none of that customer's timestamps parse. -/
def calculate_recency (rows : List IdRow) : List (String × Option DT) :=
  ((rows.map (fun r => r.customerId)).dedup).map
    (fun c => (c, maxDT (parsedDates rows c)))

/-- The dict built by `categorize_customers`: it always carries exactly
these four keys. -/
structure Categories where
  activeRegular : Nat
  inactiveRegular : Nat
  activeOccasional : Nat
  inactiveOccasional : Nat
deriving DecidableEq, Repr

/-- Sum of the four segment counts. -/
def Categories.total (c : Categories) : Nat :=
  c.activeRegular + c.inactiveRegular + c.activeOccasional + c.inactiveOccasional

/-- The `Recency` value the left join attaches to a frequency row:
value of the first (unique, since `calculate_recency` groups by customer)
matching recency row, and `NaT` (`none`) when the customer has no recency
row. -/
def lookupRecency (recency : List (String × Option DT)) (c : String) : Option DT :=
  match recency.find? (fun p => p.1 = c) with
  | some p => p.2
  | none => none

/-- The `Total Visits` column:
`data.groupby("Customer ID")["Visits"].transform("sum")`. -/
def totalVisits (freq : List VisitRow) (c : String) : Nat :=
  ((freq.filter (fun v => v.customerId = c)).map (fun v => v.visits)).sum

/-- One row of the merged frequency/recency table inside
`categorize_customers`, with the derived `Total Visits` and
`Recency Month` columns. -/
structure MergedRow where
  customerId : String
  visits : Nat
  total : Nat
  recencyMonth : Option Nat
deriving DecidableEq, Repr

/-- The merged table of `categorize_customers` (lines 195–197):
`pd.merge(frequency_data, recency_data, on="Customer ID", how="left")`
keeps one row per frequency row (the right side has unique keys), then
adds `Total Visits` and `Recency Month`.  An unknown recency gives
`Recency Month = NaN`, modelled as `none`. -/
def mergedRows (freq : List VisitRow) (recency : List (String × Option DT)) :
    List MergedRow :=
  freq.map
    (fun v =>
      { customerId := v.customerId
        visits := v.visits
        total := totalVisits freq v.customerId
        recencyMonth := (lookupRecency recency v.customerId).map DT.month })

/-- The four behavioral segments. -/
inductive Segment
  | activeRegular
  | inactiveRegular
  | activeOccasional
  | inactiveOccasional
deriving DecidableEq, Repr

/-- The segment chosen by the loop body of `categorize_customers` for one
merged row: the nested `if` on `Total Visits > 6` and
`Recency Month == current_month` (a `NaN` recency month, `none` here,
never compares equal). -/
def rowSegment (total : Nat) (recencyMonth : Option Nat) (currentMonth : Nat) : Segment :=
  if total > 6 then
    if recencyMonth = some currentMonth then .activeRegular else .inactiveRegular
  else
    if recencyMonth = some currentMonth then .activeOccasional else .inactiveOccasional

/-- The loop body of `categorize_customers` (lines 200–209): bump the
count selected by the nested threshold test. -/
def categorize_step (currentMonth : Nat) (acc : Categories) (row : MergedRow) : Categories :=
  if row.total > 6 then
    if row.recencyMonth = some currentMonth then
      { acc with activeRegular := acc.activeRegular + 1 }
    else
      { acc with inactiveRegular := acc.inactiveRegular + 1 }
  else
    if row.recencyMonth = some currentMonth then
      { acc with activeOccasional := acc.activeOccasional + 1 }
    else
      { acc with inactiveOccasional := acc.inactiveOccasional + 1 }

/-- `FrequencyRecency.categorize_customers` (lines 188–211): initialise
the four counts at zero and bump one of them per merged row. -/
def categorize_customers (freq : List VisitRow) (recency : List (String × Option DT))
    (currentMonth : Nat) : Categories :=
  (mergedRows freq recency).foldl (categorize_step currentMonth) ⟨0, 0, 0, 0⟩

/-- Bump the count of one segment. -/
def Categories.bump (c : Categories) : Segment → Categories
  | .activeRegular => { c with activeRegular := c.activeRegular + 1 }
  | .inactiveRegular => { c with inactiveRegular := c.inactiveRegular + 1 }
  | .activeOccasional => { c with activeOccasional := c.activeOccasional + 1 }
  | .inactiveOccasional => { c with inactiveOccasional := c.inactiveOccasional + 1 }

/-- Tally of a list of segments. -/
def countSegments (l : List Segment) : Categories :=
  ⟨l.count .activeRegular, l.count .inactiveRegular,
    l.count .activeOccasional, l.count .inactiveOccasional⟩

/-- Componentwise sum of two tallies. -/
def Categories.add (a b : Categories) : Categories :=
  ⟨a.activeRegular + b.activeRegular, a.inactiveRegular + b.inactiveRegular,
    a.activeOccasional + b.activeOccasional, a.inactiveOccasional + b.inactiveOccasional⟩

/-- `pd.to_numeric(…, errors="coerce")` on one cell: parse an optionally
signed decimal numeral to an exact rational, `none` (`NaN`) when the cell
is not numeric.  (Scientific notation and surrounding whitespace are not
modelled; no claim depends on them.) -/
def parseAmount (s : String) : Option ℚ :=
  let neg := match s.data with
    | '-' :: _ => true
    | _ => false
  let sign : ℚ := if neg then -1 else 1
  let body := if neg then s.data.drop 1 else s.data
  match splitOnChar '.' body with
  | [ip] => (digits? ip).map (fun n => sign * n)
  | [ip, fp] =>
    if ip.isEmpty && fp.isEmpty then none
    else
      match (if ip.isEmpty then some 0 else digits? ip),
          (if fp.isEmpty then some 0 else digits? fp) with
      | some i, some f => some (sign * ((i : ℚ) + (f : ℚ) / (10 : ℚ) ^ fp.length))
      | _, _ => none
  | _ => none

/-- A row as seen by `MonetaryValue`: the two columns the class consults,
`Customer ID` and `Amount` (test frames carry exactly these two). -/
structure MRow where
  customerId : String
  amount : String
deriving DecidableEq, Repr

/-- Contribution of one row to its customer's total: the coerced numeric
amount, with `NaN` contributing zero (the pandas `sum` skips `NaN`, and an
all-`NaN` group sums to `0.0`). -/
def moneyContrib (r : MRow) : ℚ :=
  (parseAmount r.amount).getD 0

/-- `Total Monetary Value` of one customer:
`groupby("Customer ID")["Amount"].sum()` for that customer's rows. -/
def moneyTotal (rows : List MRow) (c : String) : ℚ :=
  ((rows.filter (fun r => r.customerId = c)).map moneyContrib).sum

/-- One insertion step of the descending `sort_values`: place `p` before
the first strictly smaller total, after any tied ones. -/
def insertDesc (p : String × ℚ) : List (String × ℚ) → List (String × ℚ)
  | [] => [p]
  | q :: qs => if q.2 < p.2 then p :: q :: qs else q :: insertDesc p qs

/-- `sort_values(by="Total Monetary Value", ascending=False)`: descending
insertion sort.  (The spec forbids callers from relying on tie order, so
the particular permutation among equal totals is irrelevant.) -/
def sortDesc (l : List (String × ℚ)) : List (String × ℚ) :=
  l.foldr insertDesc []

/-- The table stored in `self.monetary_data` by
`calculate_monetary_value` (MVAnalysis.py lines 73–77): per-customer
totals, sorted by descending total. -/
def monetary_table (rows : List MRow) : List (String × ℚ) :=
  sortDesc (((rows.map (fun r => r.customerId)).dedup).map (fun c => (c, moneyTotal rows c)))

/-- The mutable state of a `MonetaryValue` object: the copied input table
and the two lazily computed result attributes (`None` until computed). -/
structure MonetaryValue where
  all_data : List MRow
  monetary_data : Option (List (String × ℚ))
  action_plan : Option (List (String × ℚ × String))
deriving DecidableEq, Repr

/-- `MonetaryValue.__init__` (lines 55–57): copy the caller's table
(`all_data.copy()`, so later coercions never touch the caller's frame) and
start with both derived attributes unset. -/
def MonetaryValue.init (rows : List MRow) : MonetaryValue :=
  { all_data := rows, monetary_data := none, action_plan := none }

/-- `MonetaryValue.calculate_monetary_value` (lines 59–77): coerce the
amounts, group-sum per customer, sort descending, store in
`monetary_data`.  (The numeric coercion of the object's own `Amount`
column is folded into `moneyContrib`.) -/
def MonetaryValue.calculate_monetary_value (mv : MonetaryValue) : MonetaryValue :=
  { mv with monetary_data := some (monetary_table mv.all_data) }

/-- The `ValueError` message raised by the two query methods before
`calculate_monetary_value` has run. -/
def notComputedMsg : String :=
  "Monetary value data has not been calculated. Call calculate_monetary_value() first."

/-- `MonetaryValue.identify_top_spending_customers` (lines 96–100):
`self.monetary_data.head(int(len(self.monetary_data) * (top_percent / 100)))`,
or the `ValueError` when `monetary_data` is unset.  Python's `int()`
truncates toward zero; for the nonnegative products arising from
`top_percent ∈ [0, 100]` that is the floor, which is how the row count is
modelled here (exact rational arithmetic; binary64 rounding of
`top_percent / 100` is outside this embedding). -/
def MonetaryValue.identify_top_spending_customers (mv : MonetaryValue)
    (top_percent : ℚ) : Except String (List (String × ℚ)) :=
  match mv.monetary_data with
  | none => .error notComputedMsg
  | some md => .ok (md.take (⌊(md.length : ℚ) * (top_percent / 100)⌋).toNat)

/-- `MonetaryValue.generate_action_plan` (lines 116–120): on the
not-yet-computed state, raise the `ValueError` leaving the object
unchanged; otherwise attach the `Action` column to a copy of the monetary
table and store it in `action_plan`. -/
def MonetaryValue.generate_action_plan (mv : MonetaryValue) :
    MonetaryValue × Except String Unit :=
  match mv.monetary_data with
  | none => (mv, .error notComputedMsg)
  | some md =>
    ({ mv with action_plan := some (md.map (fun p => (p.1, p.2, assign_action p.2))) },
      .ok ())

/-!  Frame model for the mutation question (claim C10): the caller's
table is a pandas DataFrame whose `Paid Date` column holds either the
ingested strings or, after an in-place `pd.to_datetime` assignment, parsed
timestamps.  `FrameRow` records one row of the table passed to
`calculate_monthly_visits` (it already has the two identity columns), and
`month = none` records that the `Month` column does not exist yet. -/

/-- A cell of the `Paid Date` column: the ingested string, or the value
written by the in-place `pd.to_datetime` assignment (`none` = `NaT`). -/
inductive PdCell
  | str (s : String)
  | ts (d : Option DT)
deriving DecidableEq, Repr

/-- The string `pd.to_datetime` reads from a cell (in the pipeline, cells
are still strings when `calculate_monthly_visits` runs). -/
def PdCell.asStr : PdCell → String
  | .str s => s
  | .ts _ => ""

/-- One row of the caller's table at the point `calculate_monthly_visits`
is invoked. -/
structure FrameRow where
  paidDate : PdCell
  amount : String
  ptype : String
  last4 : Option String
  last4str : String
  customerId : String
  month : Option (Option Nat)
deriving DecidableEq, Repr

/-- The caller's table after `calculate_monthly_visits` returns
(lines 141–142): the two column assignments
`all_data["Paid Date"] = pd.to_datetime(all_data["Paid Date"], …)` and
`all_data["Month"] = all_data["Paid Date"].dt.month` act on the caller's
frame itself — the method takes no copy — replacing the timestamp column
with parsed values and adding a `Month` column, while every other column
is untouched. -/
def calculate_monthly_visits_frame (t : List FrameRow) : List FrameRow :=
  t.map
    (fun r =>
      { r with
        paidDate := .ts (parseDate r.paidDate.asStr)
        month := some ((parseDate r.paidDate.asStr).map DT.month) })

/-- The caller's table after `create_customer_id` returns: the method's
first statement is `all_data = all_data.copy()` (line 112), after which
only the copy is assigned to, so the caller's frame is unchanged. -/
def create_customer_id_frame (t : List FrameRow) : List FrameRow := t

/-- The caller's table after `calculate_recency` returns: the method only
evaluates `groupby(…).max().reset_index(…)` (line 164), which builds a new
frame and assigns nothing to its argument. -/
def calculate_recency_frame (t : List FrameRow) : List FrameRow := t

/-- Scenario A of the spec (also the unit-test frame): two card rows and
one cash row with an empty card-suffix cell. -/
def scenarioARows : List TxRow :=
  [⟨"2024-10-01 10:00:00", "25.00", "Credit", some "1234"⟩,
   ⟨"2024-09-15 14:00:00", "50.00", "Credit", some "5678"⟩,
   ⟨"2024-08-20 17:00:00", "75.00", "Cash", some ""⟩]

/-- One customer with one transaction in May and one in June: a customer
whose visits span two months. -/
def twoMonthRows : List TxRow :=
  [⟨"05/01/24 10:00 AM", "5", "Credit", some "1234"⟩,
   ⟨"06/02/24 10:00 AM", "5", "Credit", some "1234"⟩]

/-- One customer with one parseable-timestamp row and one
unparseable-timestamp row. -/
def mixedDateRows : List TxRow :=
  [⟨"08/20/24 05:00 PM", "5", "Credit", some "1234"⟩,
   ⟨"??", "5", "Credit", some "1234"⟩]

/-- One customer, all of whose timestamps are unparseable. -/
def unparseableRows : List TxRow :=
  [⟨"??", "10.00", "Cash", some "9999"⟩]

/-- The five-customer frame of Scenario B (spend totals 1500, 800, 300,
50, 1200). -/
def scenarioBRows : List MRow :=
  [⟨"C1", "1500"⟩, ⟨"C2", "800"⟩, ⟨"C3", "300"⟩, ⟨"C4", "50"⟩, ⟨"C5", "1200"⟩]

/-- A one-row caller's table at the point `calculate_monthly_visits` is
invoked. -/
def oneRowFrame : List FrameRow :=
  [{ paidDate := .str "08/20/24 05:00 PM", amount := "75.00", ptype := "Cash",
     last4 := some "", last4str := "", customerId := "2024|75.00|Cash", month := none }]

/-! ### Theorems -/

/-- The loop body bumps exactly the segment selected by `rowSegment`. -/
theorem categorize_step_eq_bump (m : Nat) (acc : Categories) (row : MergedRow) :
    categorize_step m acc row = acc.bump (rowSegment row.total row.recencyMonth m) := by
  simp only [categorize_step, rowSegment]
  split_ifs <;> rfl

/-- Prepending a segment to a tally bumps its count. -/
theorem countSegments_cons (s : Segment) (l : List Segment) :
    countSegments (s :: l) = (countSegments l).bump s := by
  cases s <;> simp [countSegments, Categories.bump, List.count_cons]

/-- Bumping before adding is adding a bumped tally. -/
theorem add_bump (acc c : Categories) (s : Segment) :
    Categories.add (acc.bump s) c = Categories.add acc (c.bump s) := by
  cases s <;> cases acc <;> cases c <;>
    simp [Categories.bump, Categories.add] <;> omega

/-- The categorisation fold tallies the per-row segments. -/
theorem foldl_categorize_step (m : Nat) :
    ∀ (l : List MergedRow) (acc : Categories),
      l.foldl (categorize_step m) acc =
        Categories.add acc (countSegments (l.map (fun row => rowSegment row.total row.recencyMonth m))) := by
  intro l
  induction l with
  | nil => intro acc; cases acc; simp [countSegments, Categories.add]
  | cons r l ih =>
    intro acc
    rw [List.foldl_cons, ih, categorize_step_eq_bump, List.map_cons, countSegments_cons,
      add_bump]

/-- Claim C3: the resolved customer identity is the card-suffix string
when that field is present and is a nonempty digit string, and otherwise
the timestamp, amount and payment type joined verbatim by `|`; identical
digit suffixes resolve alike, cash rows with identical
(timestamp, amount, type) collide by design, and the three Scenario A
rows resolve to `1234`, `5678`, and
`2024-08-20 17:00:00|75.00|Cash`. -/
theorem claim_C3_identity :
    (∀ (r : TxRow) (s : String), r.last4 = some s → pyIsDigit s = true →
      (createIdRow r).customerId = s) ∧
    (∀ r : TxRow, pyIsDigit (r.last4.getD "") = false →
      (createIdRow r).customerId = r.paidDate ++ "|" ++ r.amount ++ "|" ++ r.ptype) ∧
    (∀ (r1 r2 : TxRow) (s : String), r1.last4 = some s → r2.last4 = some s →
      pyIsDigit s = true →
      (createIdRow r1).customerId = (createIdRow r2).customerId) ∧
    (∀ r1 r2 : TxRow, r1.paidDate = r2.paidDate → r1.amount = r2.amount →
      r1.ptype = r2.ptype → pyIsDigit (r1.last4.getD "") = false →
      pyIsDigit (r2.last4.getD "") = false →
      (createIdRow r1).customerId = (createIdRow r2).customerId) ∧
    (create_customer_id scenarioARows).map (fun r => r.customerId) =
      ["1234", "5678", "2024-08-20 17:00:00|75.00|Cash"] := by
  refine ⟨?_, ?_, ?_, ?_, by decide⟩
  · intro r s h hd
    simp [createIdRow, makeCustomerId, h, hd]
  · intro r hd
    simp [createIdRow, makeCustomerId, hd]
  · intro r1 r2 s h1 h2 hd
    simp [createIdRow, makeCustomerId, h1, h2, hd]
  · intro r1 r2 hp ha ht hd1 hd2
    simp [createIdRow, makeCustomerId, hd1, hd2, hp, ha, ht]

/-- Witness for C3: concrete applications of the digit-suffix rule and the
fallback rule. -/
theorem claim_C3_identity_witness :
    (createIdRow ⟨"d", "1.00", "Credit", some "1234"⟩).customerId = "1234" ∧
    (createIdRow ⟨"2024-08-20 17:00:00", "75.00", "Cash", some ""⟩).customerId =
      "2024-08-20 17:00:00" ++ "|" ++ "75.00" ++ "|" ++ "Cash" :=
  ⟨claim_C3_identity.1 ⟨"d", "1.00", "Credit", some "1234"⟩ "1234" rfl (by decide),
    claim_C3_identity.2.1 ⟨"2024-08-20 17:00:00", "75.00", "Cash", some ""⟩ (by decide)⟩

/-- Claim C4: the action label is a total function of the spend with the
four closed, ordered, non-overlapping bands of `_assign_action`, every
spend falls in one of them, and the Scenario B spends map to
VIP / Upselling / Retention / Engagement / VIP. -/
theorem claim_C4_action_bands :
    (∀ v : ℚ,
      (v > 1000 → assign_action v = "VIP Treatment: Personalized Offers") ∧
      (500 ≤ v ∧ v ≤ 1000 → assign_action v = "Upselling: Discounts on Larger Purchases") ∧
      (100 ≤ v ∧ v < 500 → assign_action v = "Retention: Loyalty Rewards") ∧
      (v < 100 → assign_action v = "Engagement: Marketing Emails or Social Media") ∧
      (v > 1000 ∨ (500 ≤ v ∧ v ≤ 1000) ∨ (100 ≤ v ∧ v < 500) ∨ v < 100) ∧
      assign_action v = assign_action v) ∧
    [(1500 : ℚ), 800, 300, 50, 1200].map assign_action =
      ["VIP Treatment: Personalized Offers", "Upselling: Discounts on Larger Purchases",
       "Retention: Loyalty Rewards", "Engagement: Marketing Emails or Social Media",
       "VIP Treatment: Personalized Offers"] := by
  refine ⟨fun v => ⟨?_, ?_, ?_, ?_, ?_, rfl⟩, by decide⟩
  · intro h
    simp only [assign_action]
    rw [if_pos h]
  · intro h
    simp only [assign_action]
    rw [if_neg (by linarith [h.2]), if_pos h]
  · intro h
    simp only [assign_action]
    rw [if_neg (by linarith [h.2]), if_neg (by rintro ⟨h5, -⟩; linarith [h.2]), if_pos h]
  · intro h
    simp only [assign_action]
    rw [if_neg (by linarith), if_neg (by rintro ⟨h5, -⟩; linarith),
      if_neg (by rintro ⟨h1, -⟩; linarith)]
  · rcases lt_or_le 1000 v with h | h
    · exact Or.inl h
    rcases le_or_lt 500 v with h5 | h5
    · exact Or.inr (Or.inl ⟨h5, h⟩)
    rcases le_or_lt 100 v with h1 | h1
    · exact Or.inr (Or.inr (Or.inl ⟨h1, h5⟩))
    · exact Or.inr (Or.inr (Or.inr h1))

/-- Witness for C4: the band implications applied at concrete spends. -/
theorem claim_C4_action_bands_witness :
    assign_action 800 = "Upselling: Discounts on Larger Purchases" ∧
    assign_action 50 = "Engagement: Marketing Emails or Social Media" :=
  ⟨((claim_C4_action_bands.1 800).2.1) ⟨by decide, by decide⟩,
    ((claim_C4_action_bands.1 50).2.2.2.1) (by decide)⟩

/-- Claim C1: per merged visit/recency row, `categorize_customers`
assigns the segment by the fixed thresholds evaluated in order —
more than 6 total visits with recency month equal to the reference month
is Active Regular, otherwise Inactive Regular; at most 6 with equal month
is Active Occasional, otherwise Inactive Occasional — and an unknown
recency month (`none`) never compares equal to the reference month, so it
is always routed to an Inactive label; the returned counts are exactly
the tally of these per-row segments. -/
theorem claim_C1_segment_thresholds :
    (∀ (tv : Nat) (rm : Option Nat) (m : Nat),
      (tv > 6 → rm = some m → rowSegment tv rm m = .activeRegular) ∧
      (tv > 6 → rm ≠ some m → rowSegment tv rm m = .inactiveRegular) ∧
      (tv ≤ 6 → rm = some m → rowSegment tv rm m = .activeOccasional) ∧
      (tv ≤ 6 → rm ≠ some m → rowSegment tv rm m = .inactiveOccasional) ∧
      (rm = none →
        rowSegment tv rm m ≠ .activeRegular ∧ rowSegment tv rm m ≠ .activeOccasional)) ∧
    (∀ (freq : List VisitRow) (recency : List (String × Option DT)) (m : Nat),
      categorize_customers freq recency m =
        countSegments ((mergedRows freq recency).map
          (fun row => rowSegment row.total row.recencyMonth m))) := by
  constructor
  · intro tv rm m
    have h6 : (tv > 6) ∨ ¬ (tv > 6) := em _
    refine ⟨?_, ?_, ?_, ?_, ?_⟩
    · intro h1 h2; simp [rowSegment, h1, h2]
    · intro h1 h2; simp [rowSegment, h1, h2]
    · intro h1 h2
      have : ¬ tv > 6 := by omega
      simp [rowSegment, this, h2]
    · intro h1 h2
      have : ¬ tv > 6 := by omega
      simp [rowSegment, this, h2]
    · intro h
      subst h
      simp only [rowSegment]
      split_ifs <;> simp_all
  · intro freq recency m
    rw [categorize_customers, foldl_categorize_step]
    cases countSegments ((mergedRows freq recency).map
      (fun row => rowSegment row.total row.recencyMonth m))
    simp [Categories.add]

/-- Witness for C1: the thresholds applied at concrete inputs (7 visits,
recency month 10 vs 9, reference month 10; and 3 visits with unknown
recency). -/
theorem claim_C1_segment_thresholds_witness :
    rowSegment 7 (some 10) 10 = .activeRegular ∧
    rowSegment 7 (some 9) 10 = .inactiveRegular ∧
    rowSegment 3 none 10 ≠ .activeOccasional :=
  ⟨(claim_C1_segment_thresholds.1 7 (some 10) 10).1 (by omega) rfl,
    (claim_C1_segment_thresholds.1 7 (some 9) 10).2.1 (by omega) (by decide),
    ((claim_C1_segment_thresholds.1 3 none 10).2.2.2.2 rfl).2⟩

/-- Bumping a tally raises the sum of the four counts by one. -/
theorem bump_total (c : Categories) (s : Segment) :
    (c.bump s).total = c.total + 1 := by
  cases s <;> simp [Categories.bump, Categories.total] <;> omega

/-- The sum of the four counts of a tally is the number of tallied
segments. -/
theorem countSegments_total : ∀ l : List Segment, (countSegments l).total = l.length := by
  intro l
  induction l with
  | nil => rfl
  | cons s l ih => rw [countSegments_cons, bump_total, ih, List.length_cons]

/-- Claim C2 (corrected): `categorize_customers` counts each row of the
merged table once, so on the pipeline's own inputs the four counts sum to
the number of monthly-visit rows — one per distinct (customer, month)
pair with a parseable timestamp — not to the number of distinct
customers.  `twoMonthRows` is one customer with visits in two months: the
counts sum to 2 while the visit data holds 1 distinct customer. -/
theorem claim_C2_counterexample :
    (categorize_customers (calculate_monthly_visits (create_customer_id twoMonthRows))
        (calculate_recency (create_customer_id twoMonthRows)) 10).total = 2 ∧
    ((calculate_monthly_visits (create_customer_id twoMonthRows)).map
        (fun v => v.customerId)).dedup.length = 1 ∧
    ¬ ((categorize_customers (calculate_monthly_visits (create_customer_id twoMonthRows))
          (calculate_recency (create_customer_id twoMonthRows)) 10).total =
        ((calculate_monthly_visits (create_customer_id twoMonthRows)).map
            (fun v => v.customerId)).dedup.length) := by
  decide

/-- Claim C2 (amended): the result always carries exactly the four
labels (by construction of `Categories`), their counts sum to the number
of frequency rows — so a customer is counted once per distinct visit
month, not once overall — and empty input yields all four counts at
zero. -/
theorem claim_C2_amended :
    (∀ (freq : List VisitRow) (recency : List (String × Option DT)) (m : Nat),
      (categorize_customers freq recency m).total = freq.length) ∧
    (∀ m : Nat,
      categorize_customers (calculate_monthly_visits (create_customer_id []))
        (calculate_recency (create_customer_id [])) m = ⟨0, 0, 0, 0⟩) ∧
    (∀ (rows : List TxRow) (m : Nat),
      (categorize_customers (calculate_monthly_visits (create_customer_id rows))
          (calculate_recency (create_customer_id rows)) m).total =
        (calculate_monthly_visits (create_customer_id rows)).length) := by
  have key : ∀ (freq : List VisitRow) (recency : List (String × Option DT)) (m : Nat),
      (categorize_customers freq recency m).total = freq.length := by
    intro freq recency m
    rw [categorize_customers, foldl_categorize_step]
    have h0 : (⟨0, 0, 0, 0⟩ : Categories).total = 0 := rfl
    calc (Categories.add ⟨0, 0, 0, 0⟩ (countSegments ((mergedRows freq recency).map
            (fun row => rowSegment row.total row.recencyMonth m)))).total
        = ((mergedRows freq recency).map
            (fun row => rowSegment row.total row.recencyMonth m)).length := by
          cases hc : countSegments ((mergedRows freq recency).map
            (fun row => rowSegment row.total row.recencyMonth m))
          have := countSegments_total ((mergedRows freq recency).map
            (fun row => rowSegment row.total row.recencyMonth m))
          rw [hc] at this
          simp [Categories.add, Categories.total] at this ⊢
          omega
      _ = (mergedRows freq recency).length := List.length_map _ _
      _ = freq.length := List.length_map _ _
  exact ⟨key, fun m => rfl, fun rows m => key _ _ m⟩

/-- Witness for C2 (amended): on a concrete one-row frequency table the
four counts sum to 1. -/
theorem claim_C2_amended_witness :
    (categorize_customers [⟨"a", 5, 2⟩] [] 10).total = 1 :=
  (claim_C2_amended.1 [⟨"a", 5, 2⟩] [] 10).trans (by decide)

/-- Claim C9: querying top spenders or generating the action plan before
`calculate_monetary_value` fails with the explicit "not yet calculated"
error and leaves the object unchanged; once `calculate_monetary_value`
has run, `monetary_data` is set and neither call raises that error. -/
theorem claim_C9_preconditions :
    (∀ (mv : MonetaryValue) (p : ℚ), mv.monetary_data = none →
      mv.identify_top_spending_customers p = .error notComputedMsg ∧
      mv.generate_action_plan.1 = mv ∧
      mv.generate_action_plan.2 = .error notComputedMsg) ∧
    (∀ (mv : MonetaryValue) (p : ℚ), mv.monetary_data ≠ none →
      (∃ res, mv.identify_top_spending_customers p = .ok res) ∧
      mv.generate_action_plan.2 = .ok ()) ∧
    (∀ rows : List MRow,
      (MonetaryValue.init rows).calculate_monetary_value.monetary_data =
        some (monetary_table rows)) := by
  refine ⟨?_, ?_, fun rows => rfl⟩
  · intro mv p h
    refine ⟨?_, ?_, ?_⟩ <;>
      simp [MonetaryValue.identify_top_spending_customers,
        MonetaryValue.generate_action_plan, h]
  · intro mv p h
    cases hm : mv.monetary_data with
    | none => exact absurd hm h
    | some md =>
      exact ⟨⟨md.take (⌊(md.length : ℚ) * (p / 100)⌋).toNat,
          by simp [MonetaryValue.identify_top_spending_customers, hm]⟩,
        by simp [MonetaryValue.generate_action_plan, hm]⟩

/-- Witness for C9: the fresh object errors, the computed object does
not. -/
theorem claim_C9_preconditions_witness :
    (MonetaryValue.init []).identify_top_spending_customers 10 = .error notComputedMsg ∧
    (MonetaryValue.init []).calculate_monetary_value.generate_action_plan.2 = .ok () :=
  ⟨(claim_C9_preconditions.1 (MonetaryValue.init []) 10 rfl).1,
    (claim_C9_preconditions.2.1 (MonetaryValue.init []).calculate_monetary_value 10
      (by simp [MonetaryValue.calculate_monetary_value])).2⟩

/-- One maximum step yields a value at least as late as both inputs,
equal to one of them. -/
theorem maxStep_facts (acc : Option DT) (d : DT) :
    ∃ x, maxStep acc d = some x ∧ d.key ≤ x.key ∧
      (∀ a, acc = some a → a.key ≤ x.key) ∧ (x = d ∨ acc = some x) := by
  cases acc with
  | none =>
    refine ⟨d, rfl, le_refl _, ?_, Or.inl rfl⟩
    intro a ha
    cases ha
  | some a =>
    by_cases h : a.key < d.key
    · refine ⟨d, by simp [maxStep, h], le_refl _, ?_, Or.inl rfl⟩
      intro b hb
      injection hb with hb
      subst hb
      omega
    · refine ⟨a, by simp [maxStep, h], by omega, ?_, Or.inr rfl⟩
      intro b hb
      injection hb with hb
      subst hb
      omega

/-- The maximum fold returns `none` exactly when it has seen nothing. -/
theorem foldl_maxStep_eq_none :
    ∀ (l : List DT) (acc : Option DT),
      l.foldl maxStep acc = none ↔ (l = [] ∧ acc = none) := by
  intro l
  induction l with
  | nil => intro acc; simp
  | cons d l ih =>
    intro acc
    rw [List.foldl_cons, ih]
    obtain ⟨x, hx, -, -, -⟩ := maxStep_facts acc d
    simp [hx]

/-- The maximum fold returns a member that dominates the accumulator and
every element seen. -/
theorem foldl_maxStep_spec :
    ∀ (l : List DT) (acc : Option DT) (m : DT),
      l.foldl maxStep acc = some m →
        (acc = some m ∨ m ∈ l) ∧ (∀ a, acc = some a → a.key ≤ m.key) ∧
          ∀ d ∈ l, d.key ≤ m.key := by
  intro l
  induction l with
  | nil =>
    intro acc m h
    refine ⟨Or.inl h, ?_, by simp⟩
    intro a ha
    rw [ha] at h
    injection h with h
    subst h
    omega
  | cons d l ih =>
    intro acc m h
    rw [List.foldl_cons] at h
    obtain ⟨x, hx, hdx, hax, hor⟩ := maxStep_facts acc d
    rw [hx] at h
    obtain ⟨hmem, hacc, hall⟩ := ih _ _ h
    have hxm : x.key ≤ m.key := hacc x rfl
    refine ⟨?_, ?_, ?_⟩
    · rcases hmem with hxm' | hml
      · injection hxm' with hxm'
        subst hxm'
        rcases hor with rfl | hacc'
        · exact Or.inr (List.mem_cons_self _ _)
        · exact Or.inl hacc'
      · exact Or.inr (List.mem_cons_of_mem _ hml)
    · intro a ha
      exact le_trans (hax a ha) hxm
    · intro e he
      rcases List.mem_cons.mp he with rfl | hel
      · exact le_trans hdx hxm
      · exact hall e hel

/-- Claim C7 (counterexample to the original claim): a customer all of
whose timestamps are unparseable is not absent from the recency result —
it appears with a null (`NaT`) recency. -/
theorem claim_C7_counterexample :
    parseDate "??" = none ∧
    calculate_recency (create_customer_id unparseableRows) = [("9999", none)] := by
  decide

/-- Claim C7 (amended): `calculate_recency` has one row per distinct
customer; the value is the maximum parsed timestamp of that customer's
rows with unparseable timestamps excluded, it is a member of those parsed
timestamps dominating all of them, and it is null exactly when none of
the customer's timestamps parse (the customer stays present, with a null
recency rather than an epoch placeholder). -/
theorem claim_C7_amended :
    (∀ (rows : List IdRow) (c : String) (v : Option DT),
      (c, v) ∈ calculate_recency rows ↔
        c ∈ rows.map (fun r => r.customerId) ∧ v = maxDT (parsedDates rows c)) ∧
    (∀ l : List DT, maxDT l = none ↔ l = []) ∧
    (∀ (l : List DT) (m : DT), maxDT l = some m → m ∈ l ∧ ∀ d ∈ l, d.key ≤ m.key) := by
  refine ⟨?_, ?_, ?_⟩
  · intro rows c v
    simp only [calculate_recency, List.mem_map, List.mem_dedup, Prod.mk.injEq]
    constructor
    · rintro ⟨c2, hc2, rfl, rfl⟩
      exact ⟨hc2, rfl⟩
    · rintro ⟨hc, rfl⟩
      exact ⟨c, hc, rfl, rfl⟩
  · intro l
    rw [maxDT, foldl_maxStep_eq_none]
    simp
  · intro l m h
    obtain ⟨hmem, -, hall⟩ := foldl_maxStep_spec l none m h
    rcases hmem with hne | hm
    · cases hne
    · exact ⟨hm, hall⟩

/-- Witness for C7 (amended): on a concrete two-row customer the recency
row carries the later parsed timestamp. -/
theorem claim_C7_amended_witness :
    ("1234", maxDT (parsedDates (create_customer_id twoMonthRows) "1234")) ∈
      calculate_recency (create_customer_id twoMonthRows) ∧
    maxDT (parsedDates (create_customer_id twoMonthRows) "1234") =
      some ⟨2024, 6, 2, 10, 0⟩ :=
  ⟨(claim_C7_amended.1 (create_customer_id twoMonthRows) "1234"
      (maxDT (parsedDates (create_customer_id twoMonthRows) "1234"))).mpr
      ⟨by decide, rfl⟩,
    by decide⟩

/-- Counting after `filterMap` is counting the preimages whose image
satisfies the predicate. -/
theorem countP_filterMap {α β : Type} (g : α → Option β) (p : β → Bool) :
    ∀ l : List α,
      (l.filterMap g).countP p = l.countP (fun a => ((g a).map p).getD false) := by
  intro l
  induction l with
  | nil => rfl
  | cons a l ih =>
    cases hg : g a with
    | none => simp [List.filterMap_cons, hg, List.countP_cons, ih]
    | some b => simp [List.filterMap_cons, hg, List.countP_cons, ih]

/-- Claim C8 (counterexample to the original claim): for a customer with
one parseable-timestamp row and one unparseable-timestamp row, the
monthly visit counts sum to 1 while the customer has 2 ingested rows —
unparseable rows are dropped from the aggregation, not included. -/
theorem claim_C8_counterexample :
    totalVisits (calculate_monthly_visits (create_customer_id mixedDateRows)) "1234" = 1 ∧
    ((create_customer_id mixedDateRows).filter (fun r => r.customerId = "1234")).length = 2 ∧
    ¬ (totalVisits (calculate_monthly_visits (create_customer_id mixedDateRows)) "1234" =
        ((create_customer_id mixedDateRows).filter
          (fun r => r.customerId = "1234")).length) := by
  decide

/-- Claim C8 (amended): for every customer, the sum over all periods of
the monthly visit counts equals the number of that customer's rows whose
timestamp parses — rows with unparseable timestamps are excluded from the
aggregation. -/
theorem claim_C8_amended :
    ∀ (rows : List IdRow) (c : String),
      totalVisits (calculate_monthly_visits rows) c =
        (rows.filter (fun r => decide (r.customerId = c) && (parseDate r.paidDate).isSome)).length := by
  intro rows c
  rw [totalVisits, calculate_monthly_visits, List.filter_map, List.map_map]
  have hcomp :
      ((fun v : VisitRow => decide (v.customerId = c)) ∘
        (fun k : String × Nat =>
          VisitRow.mk k.1 k.2 ((visitKeys rows).count k))) =
        fun k : String × Nat => decide (k.1 = c) := rfl
  have hcomp2 :
      ((fun v : VisitRow => v.visits) ∘
        (fun k : String × Nat =>
          VisitRow.mk k.1 k.2 ((visitKeys rows).count k))) =
        fun k : String × Nat => (visitKeys rows).count k := rfl
  rw [hcomp, hcomp2]
  have hcount : (fun k : String × Nat => (visitKeys rows).count k) =
      fun k : String × Nat =>
        @List.count (String × Nat) instBEqOfDecidableEq k (visitKeys rows) := by
    funext k
    rw [@List.count_eq_countP (String × Nat) instBEqProd k (visitKeys rows),
      @List.count_eq_countP (String × Nat) instBEqOfDecidableEq k (visitKeys rows)]
    congr 1
    funext x
    rw [Bool.eq_iff_iff]
    simp only [beq_iff_eq, instBEqOfDecidableEq, decide_eq_true_eq]
  rw [hcount]
  rw [List.sum_map_count_dedup_filter_eq_countP (fun k : String × Nat => decide (k.1 = c))
    (visitKeys rows)]
  rw [visitKeys, countP_filterMap]
  rw [← List.countP_eq_length_filter]
  congr 1
  funext r
  cases hp : parseDate r.paidDate with
  | none => simp [rowMonth, hp]
  | some d => simp [rowMonth, hp]

/-- Witness for C8 (amended): the one-parseable-one-unparseable customer
has a period sum of 1, its number of parseable rows. -/
theorem claim_C8_amended_witness :
    totalVisits (calculate_monthly_visits (create_customer_id mixedDateRows)) "1234" =
      ((create_customer_id mixedDateRows).filter
        (fun r => decide (r.customerId = "1234") && (parseDate r.paidDate).isSome)).length :=
  claim_C8_amended (create_customer_id mixedDateRows) "1234"

/-- Inserting into the sorted table is a permutation of prepending. -/
theorem insertDesc_perm (p : String × ℚ) :
    ∀ l : List (String × ℚ), (insertDesc p l).Perm (p :: l) := by
  intro l
  induction l with
  | nil => exact List.Perm.refl _
  | cons q qs ih =>
    rw [insertDesc]
    split_ifs with h
    · exact List.Perm.refl _
    · exact (List.Perm.cons q ih).trans (List.Perm.swap p q qs)

/-- The descending sort permutes its input. -/
theorem sortDesc_perm : ∀ l : List (String × ℚ), (sortDesc l).Perm l := by
  intro l
  induction l with
  | nil => exact List.Perm.refl _
  | cons p l ih =>
    exact (insertDesc_perm p (sortDesc l)).trans (List.Perm.cons p ih)

/-- Insertion preserves the descending order of totals. -/
theorem insertDesc_pairwise (p : String × ℚ) :
    ∀ l : List (String × ℚ),
      l.Pairwise (fun a b => b.2 ≤ a.2) →
      (insertDesc p l).Pairwise (fun a b => b.2 ≤ a.2) := by
  intro l
  induction l with
  | nil =>
    intro _
    simp [insertDesc]
  | cons q qs ih =>
    intro h
    obtain ⟨hq, hqs⟩ := List.pairwise_cons.mp h
    rw [insertDesc]
    split_ifs with hlt
    · refine List.pairwise_cons.mpr ⟨?_, h⟩
      intro b hb
      rcases List.mem_cons.mp hb with rfl | hbq
      · exact le_of_lt hlt
      · exact le_trans (hq b hbq) (le_of_lt hlt)
    · refine List.pairwise_cons.mpr ⟨?_, ih hqs⟩
      intro b hb
      rcases List.mem_cons.mp ((insertDesc_perm p qs).mem_iff.mp hb) with rfl | hbq
      · exact le_of_not_lt hlt
      · exact hq b hbq

/-- The sorted monetary table is in weakly descending total order. -/
theorem sortDesc_pairwise :
    ∀ l : List (String × ℚ), (sortDesc l).Pairwise (fun a b => b.2 ≤ a.2) := by
  intro l
  induction l with
  | nil => exact List.Pairwise.nil
  | cons p l ih => exact insertDesc_pairwise p (sortDesc l) ih

/-- In a weakly descending list, every entry is bounded by the head. -/
theorem pairwise_head_max (l : List (String × ℚ))
    (hp : l.Pairwise (fun a b => b.2 ≤ a.2)) (h : l ≠ []) :
    ∀ q ∈ l, q.2 ≤ (l.head h).2 := by
  cases l with
  | nil => exact absurd rfl h
  | cons a t =>
    intro q hq
    rw [List.head_cons]
    rcases List.mem_cons.mp hq with rfl | hqt
    · exact le_refl _
    · exact (List.pairwise_cons.mp hp).1 q hqt

/-- Claim C6: the monetary table holds one entry per distinct customer,
whose total is exactly the sum of that customer's coerced amounts
(unparseable amounts contributing zero, the customer remaining present),
and permuting the input rows changes no customer's total. -/
theorem claim_C6_monetary_totals :
    ∀ (rows rows2 : List MRow) (c : String) (t : ℚ), rows.Perm rows2 →
      (((c, t) ∈ monetary_table rows) ↔
        (c ∈ rows.map (fun r => r.customerId) ∧ t = moneyTotal rows c)) ∧
      moneyTotal rows c = moneyTotal rows2 c ∧
      (c ∈ rows.map (fun r => r.customerId) →
        (c, moneyTotal rows c) ∈ monetary_table rows) := by
  intro rows rows2 c t hperm
  have hmem : ∀ u : ℚ, ((c, u) ∈ monetary_table rows ↔
      (c ∈ rows.map (fun r => r.customerId) ∧ u = moneyTotal rows c)) := by
    intro u
    rw [monetary_table, (sortDesc_perm _).mem_iff]
    simp only [List.mem_map, List.mem_dedup, Prod.mk.injEq]
    constructor
    · rintro ⟨c2, hc2, rfl, rfl⟩
      exact ⟨hc2, rfl⟩
    · rintro ⟨hc, rfl⟩
      exact ⟨c, hc, rfl, rfl⟩
  refine ⟨hmem t, ?_, fun hc => (hmem (moneyTotal rows c)).mpr ⟨hc, rfl⟩⟩
  rw [moneyTotal, moneyTotal]
  exact ((hperm.filter (fun r => decide (r.customerId = c))).map moneyContrib).sum_eq

/-- Witness for C6: in the Scenario B frame, customer `C1` appears with
total 1500, and reversing the rows leaves `C1`'s total unchanged. -/
theorem claim_C6_monetary_totals_witness :
    ("C1", (1500 : ℚ)) ∈ monetary_table scenarioBRows ∧
    moneyTotal scenarioBRows "C1" = moneyTotal scenarioBRows.reverse "C1" :=
  ⟨((claim_C6_monetary_totals scenarioBRows scenarioBRows.reverse "C1" 1500
        (List.reverse_perm scenarioBRows).symm).1).mpr ⟨by decide, by decide⟩,
    (claim_C6_monetary_totals scenarioBRows scenarioBRows.reverse "C1" 1500
        (List.reverse_perm scenarioBRows).symm).2.1⟩

/-- The head of a nonempty `take` is the head of the list. -/
theorem head_take_eq (l : List (String × ℚ)) (n : Nat) (h : l.take n ≠ []) (h2 : l ≠ []) :
    (l.take n).head h = l.head h2 := by
  cases l with
  | nil => exact absurd rfl h2
  | cons a t =>
    cases n with
    | zero => simp at h
    | succ m => simp [List.take_succ_cons, List.head_cons]

/-- Claim C5 (exact-arithmetic semantics of the code): for `p ∈ [0, 100]`,
the top-spender query on a computed state returns `floor(N·p/100)` rows
(`N` the number of distinct customers), this result is a prefix of the
descending-sorted monetary table headed by a maximal total, and `p = 0`
yields the empty result, not an error.  Python evaluates
`int(len(md) * (p/100))` in binary64 floating point, which departs from
this floor on some inputs; see the C5 entry of the results. -/
theorem claim_C5_exact_semantics :
    ∀ (rows : List MRow) (p : ℚ), 0 ≤ p → p ≤ 100 →
      ∃ res,
        ((MonetaryValue.init rows).calculate_monetary_value).identify_top_spending_customers p
          = .ok res ∧
        res.length = (⌊((monetary_table rows).length : ℚ) * p / 100⌋).toNat ∧
        (∃ rest, res ++ rest = monetary_table rows) ∧
        (∀ (h : res ≠ []) (q : String × ℚ), q ∈ monetary_table rows →
          q.2 ≤ (res.head h).2) ∧
        (p = 0 → res = []) ∧
        (monetary_table rows).length = ((rows.map (fun r => r.customerId)).dedup).length := by
  intro rows p hp0 hp100
  have hmd : ((MonetaryValue.init rows).calculate_monetary_value).monetary_data
      = some (monetary_table rows) := rfl
  set md := monetary_table rows with hmddef
  set n : Nat := (⌊(md.length : ℚ) * (p / 100)⌋).toNat with hn
  have hok : ((MonetaryValue.init rows).calculate_monetary_value).identify_top_spending_customers p
      = .ok (md.take n) := by
    rw [MonetaryValue.identify_top_spending_customers, hmd]
  have hnle : n ≤ md.length := by
    have h1 : (md.length : ℚ) * (p / 100) ≤ (md.length : ℚ) := by
      have hd : p / 100 ≤ 1 := by
        rw [div_le_one (by norm_num : (0:ℚ) < 100)]
        exact hp100
      calc (md.length : ℚ) * (p / 100) ≤ (md.length : ℚ) * 1 :=
            mul_le_mul_of_nonneg_left hd (Nat.cast_nonneg _)
        _ = (md.length : ℚ) := mul_one _
    have h2 : ⌊(md.length : ℚ) * (p / 100)⌋ ≤ (md.length : ℤ) := by
      calc ⌊(md.length : ℚ) * (p / 100)⌋ ≤ ⌊(md.length : ℚ)⌋ := Int.floor_le_floor h1
        _ = (md.length : ℤ) := Int.floor_natCast _
    calc n ≤ ((md.length : ℤ)).toNat := Int.toNat_le_toNat h2
      _ = md.length := Int.toNat_natCast _
  refine ⟨md.take n, hok, ?_, ⟨md.drop n, List.take_append_drop n md⟩, ?_, ?_, ?_⟩
  · rw [List.length_take, mul_div_assoc]
    exact Nat.min_eq_left hnle
  · intro h q hq
    have hmd_ne : md ≠ [] := by
      intro he
      rw [he, List.take_nil] at h
      exact h rfl
    rw [head_take_eq md n h hmd_ne]
    exact pairwise_head_max md (hmddef ▸ sortDesc_pairwise _) hmd_ne q hq
  · intro hp
    subst hp
    simp [hn]
  · rw [hmddef, monetary_table, (sortDesc_perm _).length_eq, List.length_map]

/-- Witness for C5: the 40% query on the Scenario B frame, with both
hypotheses discharged at `p = 40`. -/
theorem claim_C5_exact_semantics_witness :
    (0 : ℚ) ≤ 40 ∧ (40 : ℚ) ≤ 100 ∧
    ∃ res,
      ((MonetaryValue.init scenarioBRows).calculate_monetary_value).identify_top_spending_customers 40
        = .ok res ∧
      res.length = (⌊((monetary_table scenarioBRows).length : ℚ) * 40 / 100⌋).toNat ∧
      (∃ rest, res ++ rest = monetary_table scenarioBRows) ∧
      (∀ (h : res ≠ []) (q : String × ℚ), q ∈ monetary_table scenarioBRows →
        q.2 ≤ (res.head h).2) ∧
      ((40 : ℚ) = 0 → res = []) ∧
      (monetary_table scenarioBRows).length =
        ((scenarioBRows.map (fun r => r.customerId)).dedup).length :=
  ⟨by decide, by decide,
    claim_C5_exact_semantics scenarioBRows 40 (by decide) (by decide)⟩

/-- Claim C10 (counterexample to the original claim): the caller's table
is not left unchanged by every pipeline operation —
`calculate_monthly_visits` replaces the `Paid Date` column of the
caller's frame with parsed timestamps and adds a `Month` column in
place. -/
theorem claim_C10_counterexample :
    calculate_monthly_visits_frame oneRowFrame ≠ oneRowFrame ∧
    (calculate_monthly_visits_frame oneRowFrame).map (fun r => r.month) = [some (some 8)] ∧
    oneRowFrame.map (fun r => r.month) = [none] ∧
    (calculate_monthly_visits_frame oneRowFrame).map (fun r => r.paidDate) =
      [.ts (some ⟨2024, 8, 20, 17, 0⟩)] ∧
    oneRowFrame.map (fun r => r.paidDate) = [.str "08/20/24 05:00 PM"] := by
  decide

/-- Claim C10 (amended): identity resolution works on a copy and recency
computation assigns nothing, so both leave the caller's table unchanged
(as does the monetary analysis, whose constructor copies its input); but
monthly-visit aggregation mutates the caller's table in place — row by
row it retypes the `Paid Date` cell to the parsed timestamp (`NaT` when
unparseable) and adds a `Month` column, while the amount, payment-type,
card-suffix, and customer-id fields stay unchanged. -/
theorem claim_C10_amended :
    ∀ t : List FrameRow,
      create_customer_id_frame t = t ∧
      calculate_recency_frame t = t ∧
      List.Forall₂
        (fun r2 r =>
          r2.amount = r.amount ∧ r2.ptype = r.ptype ∧ r2.last4 = r.last4 ∧
          r2.last4str = r.last4str ∧ r2.customerId = r.customerId ∧
          r2.paidDate = .ts (parseDate r.paidDate.asStr) ∧
          r2.month = some ((parseDate r.paidDate.asStr).map DT.month))
        (calculate_monthly_visits_frame t) t := by
  intro t
  refine ⟨rfl, rfl, ?_⟩
  induction t with
  | nil => exact List.Forall₂.nil
  | cons r t ih =>
    exact List.Forall₂.cons ⟨rfl, rfl, rfl, rfl, rfl, rfl, rfl⟩ ih

end CafePipeline
